import Mathlib

/-!
# Verification of the order-management API core

A shallow embedding of the order-management REST API
(`src/services/orderService.ts`, `src/services/authService.ts`,
`src/services/customerService.ts`, `src/middleware/auth.ts`,
`src/utils/validation.ts`, `src/utils/response.ts`,
`src/controllers/orderController.ts`, `src/controllers/authController.ts`),
together with theorems settling the specification's claims about it.

Numbers are modelled exactly: quantities as `Nat`, monetary amounts as `Rat`.
The relational store is modelled as an explicit in-memory state (`Db`)
threaded through the service operations; a thrown JS `Error` is modelled as
the `Except.error` case carrying the error message.
-/

namespace OrderApi

/-- Order status enumeration, from the Prisma schema / zod enum in
`src/utils/validation.ts`. -/
inductive OrderStatus where
  | PENDING
  | CONFIRMED
  | PROCESSING
  | SHIPPED
  | DELIVERED
  | CANCELLED
deriving DecidableEq

/-- A customer record (`Customer` model). Only the fields the verified
operations touch are carried. -/
structure Customer where
  id : String
  firstName : String
  lastName : String
  email : String
  phone : Option String
  address : Option String
deriving DecidableEq

/-- An order-item input as accepted by `orderItemSchema` in
`src/utils/validation.ts`: product name, quantity, unit price. -/
structure OrderItemInput where
  productName : String
  quantity : Nat
  unitPrice : Rat
deriving DecidableEq

/-- A persisted `OrderItem` row: the input fields plus the computed
`totalPrice` column written by the order service. -/
structure OrderItem where
  productName : String
  quantity : Nat
  unitPrice : Rat
  totalPrice : Rat
deriving DecidableEq

/-- A persisted `Order` row together with its `OrderItem` rows. -/
structure Order where
  id : Nat
  orderNumber : String
  status : OrderStatus
  totalAmount : Rat
  notes : Option String
  customerId : String
  items : List OrderItem
deriving DecidableEq

/-- The relational store visible to the order service: the `customer` and
`order` tables plus the id generator for new orders. -/
structure Db where
  customers : List Customer
  orders : List Order
  nextId : Nat
deriving DecidableEq

/-- The payload accepted by `createOrderSchema`:
customerId, optional status, optional notes, item list. -/
structure CreateOrderInput where
  customerId : String
  status : Option OrderStatus
  notes : Option String
  items : List OrderItemInput
deriving DecidableEq

/-- The payload accepted by `updateOrderSchema`: all fields optional,
including the item list. -/
structure UpdateOrderInput where
  status : Option OrderStatus
  notes : Option String
  items : Option (List OrderItemInput)
deriving DecidableEq

/-- Validity of a `CreateOrderInput` per `createOrderSchema`:
non-empty customerId, at least one item, and each item with non-empty
product name, positive integer quantity and positive unit price. -/
def ValidCreateOrderInput (data : CreateOrderInput) : Prop :=
  data.customerId ≠ "" ∧ data.items ≠ [] ∧
    ∀ item ∈ data.items,
      item.productName ≠ "" ∧ 0 < item.quantity ∧ 0 < item.unitPrice

/-- JS `String(n)` for a natural number: the base-10 numeral, most
significant digit first (`"0"` for zero). -/
def natDecimalChars (n : Nat) : List Char :=
  if n = 0 then ['0'] else ((Nat.digits 10 n).map Nat.digitChar).reverse

/-- JS `s.padStart(len, c)` on a character list: prepend copies of `c`
until the length reaches `len` (no change when already long enough). -/
def padStart (s : List Char) (len : Nat) (c : Char) : List Char :=
  List.replicate (len - s.length) c ++ s

/-- The order-number template from `OrderService.createOrder`:
`ORD-<year>-<String(seq).padStart(6, '0')>`. -/
def mkOrderNumber (year seq : Nat) : String :=
  ⟨"ORD-".data ++ natDecimalChars year ++ "-".data
    ++ padStart (natDecimalChars seq) 6 '0'⟩

/-- The `items.reduce((sum, item) => sum + item.quantity * item.unitPrice, 0)`
total from the order service. -/
def orderTotal (items : List OrderItemInput) : Rat :=
  items.foldl (fun sum item => sum + item.quantity * item.unitPrice) 0

/-- The persisted row for one item input:
`{ ...item, totalPrice: item.quantity * item.unitPrice }`. -/
def persistItem (item : OrderItemInput) : OrderItem :=
  { productName := item.productName
    quantity := item.quantity
    unitPrice := item.unitPrice
    totalPrice := item.quantity * item.unitPrice }

/-- Model of `OrderService.createOrder`: verify the customer exists (else throw
`'Customer not found'`), compute the total, generate the order number from
the current row count, and insert the order with its items.  The current
year (from `new Date()`) is an external input. -/
def createOrder (year : Nat) (db : Db) (data : CreateOrderInput) :
    Db × Except String Order :=
  match db.customers.find? (fun c => c.id == data.customerId) with
  | none => (db, .error "Customer not found")
  | some _ =>
    let totalAmount := orderTotal data.items
    let orderCount := db.orders.length
    let orderNumber := mkOrderNumber year (orderCount + 1)
    let order : Order :=
      { id := db.nextId
        orderNumber := orderNumber
        status := data.status.getD .PENDING
        totalAmount := totalAmount
        notes := data.notes
        customerId := data.customerId
        items := data.items.map persistItem }
    ({ db with orders := db.orders ++ [order], nextId := db.nextId + 1 },
      .ok order)

/-- The merged row produced by `prisma.order.update` for the
no-items branch of `OrderService.updateOrder`: fields present in the
input overwrite, absent fields are left alone. -/
def applyOrderData (data : UpdateOrderInput) (o : Order) : Order :=
  { o with
    status := data.status.getD o.status
    notes := match data.notes with | some v => some v | none => o.notes }

/-- Model of `OrderService.updateOrder`: when the input carries an item list the
existing items are dropped (`deleteMany: {}`) and replaced by the new list
with recomputed `totalPrice`/`totalAmount`; otherwise only the scalar
fields are merged.  A missing order surfaces as `'Order not found'` and
leaves the store unchanged. -/
def updateOrder (db : Db) (id : Nat) (data : UpdateOrderInput) :
    Db × Except String Order :=
  match db.orders.find? (fun o => o.id == id) with
  | none => (db, .error "Order not found")
  | some o =>
    match data.items with
    | some items =>
      let o' : Order :=
        { applyOrderData data o with
          totalAmount := orderTotal items
          items := items.map persistItem }
      ({ db with orders := db.orders.map (fun x => if x.id = id then o' else x) },
        .ok o')
    | none =>
      let o' := applyOrderData data o
      ({ db with orders := db.orders.map (fun x => if x.id = id then o' else x) },
        .ok o')

/-- Model of `OrderService.deleteOrder`: remove the order row, or throw
`'Order not found'` when it is absent. -/
def deleteOrder (db : Db) (id : Nat) : Db × Except String Unit :=
  match db.orders.find? (fun o => o.id == id) with
  | none => (db, .error "Order not found")
  | some _ =>
    ({ db with orders := db.orders.filter (fun o => o.id != id) }, .ok ())

/-- Model of `OrderService.getOrderById`: look the order up, throwing
`'Order not found'` when absent. -/
def getOrderById (db : Db) (id : Nat) : Except String Order :=
  match db.orders.find? (fun o => o.id == id) with
  | none => .error "Order not found"
  | some o => .ok o

/-- The per-order totals invariant stated by the spec:
`totalAmount` is the sum of the items' `totalPrice`, and each item's
`totalPrice` is `quantity × unitPrice`. -/
def OrderTotalsOk (o : Order) : Prop :=
  o.totalAmount = (o.items.map (fun it => it.totalPrice)).sum ∧
    ∀ it ∈ o.items, it.totalPrice = it.quantity * it.unitPrice

/-- The store-wide totals invariant: every persisted order satisfies
`OrderTotalsOk`. -/
def DbTotalsOk (db : Db) : Prop :=
  ∀ o ∈ db.orders, OrderTotalsOk o

/-- A sample customer row used to exercise the operations on concrete data. -/
def sampleCustomer : Customer :=
  { id := "c1", firstName := "Alice", lastName := "Wilson"
    email := "alice@example.com", phone := none, address := none }

/-- A sample store holding one customer and no orders. -/
def sampleDb : Db := { customers := [sampleCustomer], orders := [], nextId := 0 }

/-- A sample valid order-creation payload: two laptops at 3 each. -/
def sampleInput : CreateOrderInput :=
  { customerId := "c1", status := none, notes := none
    items := [{ productName := "Laptop", quantity := 2, unitPrice := 3 }] }

/-- The order row `createOrder` produces from `sampleDb` and `sampleInput`. -/
def sampleOrder : Order :=
  { id := 0, orderNumber := mkOrderNumber 2026 1, status := .PENDING
    totalAmount := orderTotal sampleInput.items, notes := none
    customerId := "c1", items := sampleInput.items.map persistItem }

/-- The store after creating `sampleOrder` in `sampleDb`. -/
def sampleDb1 : Db :=
  { customers := [sampleCustomer], orders := [sampleOrder], nextId := 1 }

/-- A replacement item list used to exercise item-replacing updates. -/
def updItems : List OrderItemInput :=
  [{ productName := "Mouse", quantity := 1, unitPrice := 5 }]

/-- An update payload supplying only a new item list. -/
def updInput : UpdateOrderInput :=
  { status := none, notes := none, items := some updItems }

/-- The row `updateOrder` produces for `sampleOrder` under `updInput`. -/
def updatedOrder : Order :=
  { applyOrderData updInput sampleOrder with
    totalAmount := orderTotal updItems
    items := updItems.map persistItem }

/-- The store `updateOrder` leaves behind after replacing `sampleOrder`'s
items in `sampleDb1`. -/
def updatedDb : Db :=
  { sampleDb1 with
    orders := sampleDb1.orders.map (fun x => if x.id = 0 then updatedOrder else x) }

/-- Decimal valuation of a character list: the number the digits spell in
base 10, leading zeros contributing nothing.  Inverse of `natDecimalChars`
composed with zero-padding, used to prove order numbers injective. -/
def valChars (l : List Char) : Nat :=
  l.foldl (fun a c => 10 * a + (c.toNat - 48)) 0

/-- The order numbers currently borne by the orders in the store. -/
def orderNumbers (db : Db) : List String :=
  db.orders.map (fun o => o.orderNumber)

/-- The numbering invariant of a store reached by creations only in a fixed
year: the i-th order (0-based) bears order number `mkOrderNumber year (i+1)`. -/
def Numbered (year : Nat) (db : Db) : Prop :=
  orderNumbers db
    = (List.range db.orders.length).map (fun i => mkOrderNumber year (i + 1))

/-- Running a sequence of `createOrder` calls (all in the same year),
keeping only the store each call leaves behind. -/
def runCreates (year : Nat) (db : Db) (inputs : List CreateOrderInput) : Db :=
  inputs.foldl (fun d inp => (createOrder year d inp).1) db

/-- The second order created from `sampleDb` by two consecutive
`createOrder` calls: id 1, order number `ORD-2026-000002`. -/
def cexOrder2 : Order :=
  { id := 1, orderNumber := mkOrderNumber 2026 2, status := .PENDING
    totalAmount := orderTotal sampleInput.items, notes := none
    customerId := "c1", items := sampleInput.items.map persistItem }

/-- The store after creating two orders in `sampleDb` and deleting the
first: one order left, bearing `ORD-2026-000002`, next id 2. -/
def cexDb3 : Db :=
  { customers := [sampleCustomer], orders := [cexOrder2], nextId := 2 }

/-- The order generated by a further creation in `cexDb3`: the row count
is back to 1, so the generated number is `ORD-2026-000002` again. -/
def cexOrder4 : Order :=
  { id := 2, orderNumber := mkOrderNumber 2026 2, status := .PENDING
    totalAmount := orderTotal sampleInput.items, notes := none
    customerId := "c1", items := sampleInput.items.map persistItem }

/-- The identity claims carried by a session token
(`JwtPayload` in `src/types/index.ts`). -/
structure JwtPayload where
  userId : String
  email : String
deriving DecidableEq

/-- The uniform response envelope written by `ApiResponseUtil`
(`src/utils/response.ts`): HTTP status plus the `success`/`message`/`error`
fields of the JSON body. -/
structure HttpResponse where
  status : Nat
  success : Bool
  message : String
  error : Option String
deriving DecidableEq

/-- Model of `ApiResponseUtil.success`: success envelope with the given message and
status code. -/
def ApiResponseUtil.success (message : String) (statusCode : Nat) :
    HttpResponse :=
  { status := statusCode, success := true, message := message, error := none }

/-- Model of `ApiResponseUtil.error`: failure envelope with the given message,
optional error detail and status code. -/
def ApiResponseUtil.error (message : String) (err : Option String)
    (statusCode : Nat) : HttpResponse :=
  { status := statusCode, success := false, message := message, error := err }

/-- Model of `ApiResponseUtil.notFound`: `<resource> not found` with status 404. -/
def ApiResponseUtil.notFound (resource : String) : HttpResponse :=
  ApiResponseUtil.error (resource ++ " not found") none 404

/-- Model of `ApiResponseUtil.unauthorized`: the given message with status 401. -/
def ApiResponseUtil.unauthorized (message : String) : HttpResponse :=
  ApiResponseUtil.error message none 401

/-- JS `String.prototype.split(' ')` on a character list: the first
segment plus the list of remaining segments (splitting at every single
space, empty segments kept). -/
def splitSp : List Char → List Char × List (List Char)
  | [] => ([], [])
  | c :: cs =>
    let r := splitSp cs
    if c = ' ' then ([], r.1 :: r.2) else (c :: r.1, r.2)

/-- JS `h.split(' ')` as a list of strings. -/
def jsSplitSpace (h : String) : List String :=
  ((splitSp h.data).1 :: (splitSp h.data).2).map String.mk

/-- The token extraction of `authenticateToken` in
`src/middleware/auth.ts`: `authHeader && authHeader.split(' ')[1]`,
with the subsequent `if (!token)` treating an absent index 1 and an empty
string alike as a missing token. -/
def extractToken (authHeader : Option String) : Option String :=
  match authHeader with
  | none => none
  | some h =>
    match (jsSplitSpace h).get? 1 with
    | none => none
    | some t => if t = "" then none else some t

/-- The outcome of the auth gate: a rejection envelope, or control passed
to the handler with the decoded identity attached to the request. -/
inductive AuthOutcome where
  | rejected (response : HttpResponse)
  | proceeded (user : JwtPayload)
deriving DecidableEq

/-- Model of `authenticateToken` from `src/middleware/auth.ts`, parameterised by
the verifier (`AuthUtil.verifyToken`, whose success is `some payload` and
whose thrown failure is `none`): missing token → 401
`"Access token required"`; verifier failure → 401
`"Invalid or expired token"`; success → proceed with the payload. -/
def authenticateToken (verify : String → Option JwtPayload)
    (authHeader : Option String) : AuthOutcome :=
  match extractToken authHeader with
  | none => .rejected (ApiResponseUtil.unauthorized "Access token required")
  | some t =>
    match verify t with
    | some payload => .proceeded payload
    | none => .rejected (ApiResponseUtil.unauthorized "Invalid or expired token")

/-- Modelled from the spec: the signed, time-limited token produced by the
external `jsonwebtoken` library (`AuthUtil.generateToken` /
`AuthUtil.verifyToken` in `src/utils/auth.ts` wrap `jwt.sign` /
`jwt.verify`, whose implementation is not part of this repository; §4.1
specifies "produces a signed, time-limited token encoding the identity
claims" and "validates signature and expiry; fails on tampering, wrong
signature, or expiry").  A token carries its claims payload, the key it was
signed with, the payload its signature covers, and its expiry instant. -/
structure Token where
  payload : JwtPayload
  sigKey : String
  sigPayload : JwtPayload
  expiresAt : Nat
deriving DecidableEq

/-- Modelled from the spec: `AuthUtil.generateToken` — sign the payload
with the configured key, expiring `expiresIn` after the current time. -/
def generateToken (key : String) (now expiresIn : Nat) (p : JwtPayload) :
    Token :=
  { payload := p, sigKey := key, sigPayload := p, expiresAt := now + expiresIn }

/-- Modelled from the spec: `AuthUtil.verifyToken` — accept exactly when
the signature was made with the same key over the token's payload and the
token has not expired, returning the decoded payload. -/
def verifyToken (key : String) (now : Nat) (t : Token) : Option JwtPayload :=
  if t.sigKey = key ∧ t.sigPayload = t.payload ∧ now < t.expiresAt
  then some t.payload else none

/-- A `User` row: unique email and hashed password secret, as seeded. -/
structure User where
  id : String
  email : String
  password : String
  createdAt : Nat
deriving DecidableEq

/-- The login payload accepted by `loginSchema`. -/
structure LoginInput where
  email : String
  password : String
deriving DecidableEq

/-- The password-free user view returned by `AuthService.login`. -/
structure AuthUser where
  id : String
  email : String
  createdAt : Nat
deriving DecidableEq

/-- Model of `AuthService.login`, parameterised by the password comparison
(`AuthUtil.comparePassword`, external bcrypt) and token issuance
(`AuthUtil.generateToken`): find the user by email (else throw
`'Invalid credentials'`), check the password (else throw
`'Invalid credentials'`), and return a token plus the password-free user. -/
def login (compare : String → String → Bool)
    (generate : JwtPayload → Token) (users : List User)
    (credentials : LoginInput) : Except String (Token × AuthUser) :=
  match users.find? (fun u => u.email == credentials.email) with
  | none => .error "Invalid credentials"
  | some user =>
    if compare credentials.password user.password then
      .ok (generate { userId := user.id, email := user.email },
        { id := user.id, email := user.email, createdAt := user.createdAt })
    else
      .error "Invalid credentials"

/-- The longest leading digit run of a character list as a number, `none`
when there is no leading digit. -/
def parseDigits (l : List Char) : Option Nat :=
  let ds := l.takeWhile (fun c => c.isDigit)
  if ds = [] then none
  else some (ds.foldl (fun a c => 10 * a + (c.toNat - 48)) 0)

/-- JS `parseInt(s, 10)` restricted to what the pagination schema feeds
it: skip leading whitespace, take an optional sign, then the longest
leading run of decimal digits; `none` models `NaN` (no digits found). -/
def jsParseInt (s : String) : Option Int :=
  let l := s.data.dropWhile
    (fun c => c == ' ' || c == '\t' || c == '\n' || c == '\r')
  match l with
  | '-' :: rest => (parseDigits rest).map (fun n => -(n : Int))
  | '+' :: rest => (parseDigits rest).map (fun n => (n : Int))
  | _ => (parseDigits l).map (fun n => (n : Int))

/-- The `page` transform of `paginationSchema` in `src/utils/validation.ts`:
`val ? parseInt(val, 10) : 1` — the default applies exactly when the field
is absent or the empty string (JS falsiness); `none` models `NaN`. -/
def parsePageField (val : Option String) : Option Int :=
  match val with
  | none => some 1
  | some v => if v = "" then some 1 else jsParseInt v

/-- The `limit` transform of `paginationSchema`:
`val ? parseInt(val, 10) : 10`. -/
def parseLimitField (val : Option String) : Option Int :=
  match val with
  | none => some 10
  | some v => if v = "" then some 10 else jsParseInt v

/-- Model of `paginationSchema.parse` on the raw query fields. -/
def paginationSchema (page limit : Option String) :
    Option Int × Option Int :=
  (parsePageField page, parseLimitField limit)

/-- Model of `OrderController.createOrder`: service success → 201 success envelope;
any service failure → `ApiResponseUtil.error('Failed to create order', msg)`
with the default status 400. -/
def OrderController.createOrder (year : Nat) (db : Db)
    (input : CreateOrderInput) : Db × HttpResponse :=
  match OrderApi.createOrder year db input with
  | (db', .ok _) =>
    (db', ApiResponseUtil.success "Order created successfully" 201)
  | (db', .error e) =>
    (db', ApiResponseUtil.error "Failed to create order" (some e) 400)

/-- Model of `OrderController.getOrderById`: service success → 200; any failure →
`ApiResponseUtil.notFound('Order')`. -/
def OrderController.getOrderById (db : Db) (id : Nat) : HttpResponse :=
  match OrderApi.getOrderById db id with
  | .ok _ => ApiResponseUtil.success "Order retrieved successfully" 200
  | .error _ => ApiResponseUtil.notFound "Order"

/-- Model of `OrderController.updateOrder`: service success → 200; any failure →
`ApiResponseUtil.notFound('Order')`. -/
def OrderController.updateOrder (db : Db) (id : Nat)
    (data : UpdateOrderInput) : Db × HttpResponse :=
  match OrderApi.updateOrder db id data with
  | (db', .ok _) =>
    (db', ApiResponseUtil.success "Order updated successfully" 200)
  | (db', .error _) => (db', ApiResponseUtil.notFound "Order")

/-- Model of `OrderController.deleteOrder`: service success → 200; any failure →
`ApiResponseUtil.notFound('Order')`. -/
def OrderController.deleteOrder (db : Db) (id : Nat) : Db × HttpResponse :=
  match OrderApi.deleteOrder db id with
  | (db', .ok _) =>
    (db', ApiResponseUtil.success "Order deleted successfully" 200)
  | (db', .error _) => (db', ApiResponseUtil.notFound "Order")

/-- The token-extraction rule as the claim words it: the substring after
the first space of the header (missing when the header has no space, or
when everything after the first space is empty). -/
def substringAfterFirstSpace : List Char → Option (List Char)
  | [] => none
  | c :: cs => if c = ' ' then some cs else substringAfterFirstSpace cs

/-- The auth-gate extraction the claim describes, built on
`substringAfterFirstSpace`; to be compared with `extractToken`, the
extraction the middleware actually performs. -/
def claimedExtractToken (authHeader : Option String) : Option String :=
  match authHeader with
  | none => none
  | some h =>
    match substringAfterFirstSpace h.data with
    | none => none
    | some t => if t = [] then none else some (String.mk t)

/-- A seeded user row for exercising login on concrete data. -/
def sampleUser : User :=
  { id := "u1", email := "admin@example.com", password := "hashed-pw"
    createdAt := 0 }

theorem orderTotal_eq_sum (items : List OrderItemInput) :
    orderTotal items
      = (items.map (fun item => (item.quantity : Rat) * item.unitPrice)).sum := by
  suffices h : ∀ (a : Rat),
      items.foldl (fun sum item => sum + (item.quantity : Rat) * item.unitPrice) a
        = a + (items.map (fun item => (item.quantity : Rat) * item.unitPrice)).sum by
    simpa [orderTotal] using h 0
  induction items with
  | nil => intro a; simp
  | cons hd tl ih =>
    intro a
    rw [List.foldl_cons, ih]
    simp [add_assoc]

theorem orderTotal_eq_persisted_sum (items : List OrderItemInput) :
    orderTotal items
      = ((items.map persistItem).map (fun it => it.totalPrice)).sum := by
  rw [orderTotal_eq_sum, List.map_map]
  rfl

theorem persistItem_totalsOk (items : List OrderItemInput) :
    ∀ it ∈ items.map persistItem, it.totalPrice = it.quantity * it.unitPrice := by
  intro it hit
  rcases List.mem_map.mp hit with ⟨item, _, rfl⟩
  rfl

theorem createOrder_totalsOk {year : Nat} {db db' : Db}
    {data : CreateOrderInput} {o : Order}
    (h : createOrder year db data = (db', .ok o)) : OrderTotalsOk o := by
  unfold createOrder at h
  cases hfind : db.customers.find? (fun c => c.id == data.customerId) with
  | none => rw [hfind] at h; simp at h
  | some c =>
    rw [hfind] at h
    simp only [Prod.mk.injEq, Except.ok.injEq] at h
    obtain ⟨-, rfl⟩ := h
    refine ⟨?_, persistItem_totalsOk data.items⟩
    simpa using orderTotal_eq_persisted_sum data.items

theorem updateOrder_totalsOk_of_items {db db' : Db} {id : Nat}
    {data : UpdateOrderInput} {items : List OrderItemInput} {o : Order}
    (hi : data.items = some items)
    (h : updateOrder db id data = (db', .ok o)) : OrderTotalsOk o := by
  unfold updateOrder at h
  cases hfind : db.orders.find? (fun x => x.id == id) with
  | none => rw [hfind] at h; simp at h
  | some old =>
    rw [hfind, hi] at h
    simp only [Prod.mk.injEq, Except.ok.injEq] at h
    obtain ⟨-, rfl⟩ := h
    refine ⟨?_, persistItem_totalsOk items⟩
    simpa using orderTotal_eq_persisted_sum items

theorem createOrder_ok_elim {year : Nat} {db db' : Db}
    {data : CreateOrderInput} {o : Order}
    (h : createOrder year db data = (db', .ok o)) :
    o.totalAmount = orderTotal data.items ∧
    o.items = data.items.map persistItem ∧
    o.orderNumber = mkOrderNumber year (db.orders.length + 1) ∧
    o.status = data.status.getD .PENDING ∧
    o.notes = data.notes ∧
    o.customerId = data.customerId ∧
    db' = { db with orders := db.orders ++ [o], nextId := db.nextId + 1 } := by
  unfold createOrder at h
  cases hfind : db.customers.find? (fun c => c.id == data.customerId) with
  | none => rw [hfind] at h; simp at h
  | some c =>
    rw [hfind] at h
    simp only [Prod.mk.injEq, Except.ok.injEq] at h
    obtain ⟨h1, h2⟩ := h
    subst h2
    exact ⟨rfl, rfl, rfl, rfl, rfl, rfl, h1.symm⟩

theorem createOrder_error_elim {year : Nat} {db db' : Db}
    {data : CreateOrderInput} {e : String}
    (h : createOrder year db data = (db', .error e)) :
    db.customers.find? (fun c => c.id == data.customerId) = none ∧
      db' = db ∧ e = "Customer not found" := by
  unfold createOrder at h
  cases hfind : db.customers.find? (fun c => c.id == data.customerId) with
  | none =>
    rw [hfind] at h
    simp only [Prod.mk.injEq, Except.error.injEq] at h
    exact ⟨rfl, h.1.symm, h.2.symm⟩
  | some c => rw [hfind] at h; simp at h

theorem updateOrder_ok_items_elim {db db' : Db} {id : Nat}
    {data : UpdateOrderInput} {items : List OrderItemInput} {o' : Order}
    (hi : data.items = some items)
    (h : updateOrder db id data = (db', .ok o')) :
    ∃ o, db.orders.find? (fun x => x.id == id) = some o ∧
      o' = { applyOrderData data o with
              totalAmount := orderTotal items
              items := items.map persistItem } ∧
      db' = { db with
              orders := db.orders.map (fun x => if x.id = id then o' else x) } := by
  unfold updateOrder at h
  cases hfind : db.orders.find? (fun x => x.id == id) with
  | none => rw [hfind] at h; simp at h
  | some o =>
    rw [hfind, hi] at h
    simp only [Prod.mk.injEq, Except.ok.injEq] at h
    obtain ⟨h1, h2⟩ := h
    subst h2
    exact ⟨o, rfl, rfl, h1.symm⟩

theorem updateOrder_ok_noitems_elim {db db' : Db} {id : Nat}
    {data : UpdateOrderInput} {o' : Order}
    (hi : data.items = none)
    (h : updateOrder db id data = (db', .ok o')) :
    ∃ o, db.orders.find? (fun x => x.id == id) = some o ∧
      o' = applyOrderData data o ∧
      db' = { db with
              orders := db.orders.map (fun x => if x.id = id then o' else x) } := by
  unfold updateOrder at h
  cases hfind : db.orders.find? (fun x => x.id == id) with
  | none => rw [hfind] at h; simp at h
  | some o =>
    rw [hfind, hi] at h
    simp only [Prod.mk.injEq, Except.ok.injEq] at h
    obtain ⟨h1, h2⟩ := h
    subst h2
    exact ⟨o, rfl, rfl, h1.symm⟩

theorem updateOrder_error_elim {db db' : Db} {id : Nat}
    {data : UpdateOrderInput} {e : String}
    (h : updateOrder db id data = (db', .error e)) :
    db.orders.find? (fun x => x.id == id) = none ∧
      db' = db ∧ e = "Order not found" := by
  unfold updateOrder at h
  cases hfind : db.orders.find? (fun x => x.id == id) with
  | none =>
    rw [hfind] at h
    simp only [Prod.mk.injEq, Except.error.injEq] at h
    exact ⟨rfl, h.1.symm, h.2.symm⟩
  | some o =>
    rw [hfind] at h
    cases hi : data.items with
    | some items => rw [hi] at h; simp at h
    | none => rw [hi] at h; simp at h

theorem applyOrderData_totalsOk {data : UpdateOrderInput} {o : Order}
    (h : OrderTotalsOk o) : OrderTotalsOk (applyOrderData data o) := h

theorem createOrder_preserves_DbTotalsOk {year : Nat} {db db' : Db}
    {data : CreateOrderInput} {r : Except String Order}
    (hdb : DbTotalsOk db) (h : createOrder year db data = (db', r)) :
    DbTotalsOk db' := by
  cases r with
  | error e =>
    obtain ⟨-, rfl, -⟩ := createOrder_error_elim h
    exact hdb
  | ok o =>
    have hspec := createOrder_ok_elim h
    have hok : OrderTotalsOk o := createOrder_totalsOk h
    rw [hspec.2.2.2.2.2.2]
    intro x hx
    rcases List.mem_append.mp hx with hx | hx
    · exact hdb x hx
    · rcases List.mem_singleton.mp hx with rfl
      exact hok

theorem updateOrder_preserves_DbTotalsOk {db db' : Db} {id : Nat}
    {data : UpdateOrderInput} {r : Except String Order}
    (hdb : DbTotalsOk db) (h : updateOrder db id data = (db', r)) :
    DbTotalsOk db' := by
  cases r with
  | error e =>
    obtain ⟨-, rfl, -⟩ := updateOrder_error_elim h
    exact hdb
  | ok o' =>
    have hok : OrderTotalsOk o' := by
      cases hi : data.items with
      | some items => exact updateOrder_totalsOk_of_items hi h
      | none =>
        obtain ⟨o, hfind, rfl, -⟩ := updateOrder_ok_noitems_elim hi h
        exact applyOrderData_totalsOk (hdb o (List.mem_of_find?_eq_some hfind))
    have hdb' : db'.orders
        = db.orders.map (fun x => if x.id = id then o' else x) := by
      cases hi : data.items with
      | some items =>
        obtain ⟨o, -, -, rfl⟩ := updateOrder_ok_items_elim hi h
        rfl
      | none =>
        obtain ⟨o, -, -, rfl⟩ := updateOrder_ok_noitems_elim hi h
        rfl
    intro x hx
    rw [hdb'] at hx
    rcases List.mem_map.mp hx with ⟨y, hy, rfl⟩
    by_cases hcase : y.id = id
    · simpa [hcase] using hok
    · simpa [hcase] using hdb y hy

theorem deleteOrder_preserves_DbTotalsOk {db db' : Db} {id : Nat}
    {r : Except String Unit}
    (hdb : DbTotalsOk db) (h : deleteOrder db id = (db', r)) :
    DbTotalsOk db' := by
  unfold deleteOrder at h
  cases hfind : db.orders.find? (fun o => o.id == id) with
  | none =>
    rw [hfind] at h
    obtain ⟨rfl, -⟩ := Prod.mk.injEq .. ▸ h
    exact hdb
  | some o =>
    rw [hfind] at h
    simp only [Prod.mk.injEq] at h
    obtain ⟨h1, -⟩ := h
    subst h1
    exact fun x hx => hdb x (List.mem_of_mem_filter hx)

theorem createOrder_sample :
    createOrder 2026 sampleDb sampleInput = (sampleDb1, .ok sampleOrder) := rfl

/-- C1: for every valid `CreateOrderInput` the created order's `totalAmount`
is the sum of `quantity × unitPrice` over the input items and every
persisted item's `totalPrice` is its `quantity × unitPrice`; the same holds
for `updateOrder` whenever a new item list is supplied; and the invariant
"`totalAmount` = sum of the items' `totalPrice`" holds for every order in
the store after any create, update or delete, provided it held before. -/
theorem order_totals_correct_and_invariant :
    (∀ (year : Nat) (db db' : Db) (data : CreateOrderInput) (o : Order),
       ValidCreateOrderInput data →
       createOrder year db data = (db', .ok o) →
       o.totalAmount
           = (data.items.map (fun i => (i.quantity : Rat) * i.unitPrice)).sum ∧
         ∀ it ∈ o.items, it.totalPrice = it.quantity * it.unitPrice) ∧
    (∀ (db db' : Db) (id : Nat) (data : UpdateOrderInput)
       (items : List OrderItemInput) (o : Order),
       data.items = some items →
       updateOrder db id data = (db', .ok o) →
       o.totalAmount
           = (items.map (fun i => (i.quantity : Rat) * i.unitPrice)).sum ∧
         ∀ it ∈ o.items, it.totalPrice = it.quantity * it.unitPrice) ∧
    (∀ (year : Nat) (db db' : Db) (data : CreateOrderInput)
       (r : Except String Order),
       DbTotalsOk db → createOrder year db data = (db', r) → DbTotalsOk db') ∧
    (∀ (db db' : Db) (id : Nat) (data : UpdateOrderInput)
       (r : Except String Order),
       DbTotalsOk db → updateOrder db id data = (db', r) → DbTotalsOk db') ∧
    (∀ (db db' : Db) (id : Nat) (r : Except String Unit),
       DbTotalsOk db → deleteOrder db id = (db', r) → DbTotalsOk db') := by
  refine ⟨?_, ?_, ?_, ?_, ?_⟩
  · intro year db db' data o _ h
    have hspec := createOrder_ok_elim h
    have hok := createOrder_totalsOk h
    refine ⟨?_, hok.2⟩
    rw [hspec.1, orderTotal_eq_sum]
  · intro db db' id data items o hi h
    have hok := updateOrder_totalsOk_of_items hi h
    obtain ⟨old, -, rfl, -⟩ := updateOrder_ok_items_elim hi h
    refine ⟨?_, hok.2⟩
    show orderTotal items = _
    rw [orderTotal_eq_sum]
  · intro year db db' data r hdb h
    exact createOrder_preserves_DbTotalsOk hdb h
  · intro db db' id data r hdb h
    exact updateOrder_preserves_DbTotalsOk hdb h
  · intro db db' id r hdb h
    exact deleteOrder_preserves_DbTotalsOk hdb h

theorem order_totals_correct_and_invariant_witness :
    sampleOrder.totalAmount
        = (sampleInput.items.map (fun i => (i.quantity : Rat) * i.unitPrice)).sum ∧
      ∀ it ∈ sampleOrder.items, it.totalPrice = it.quantity * it.unitPrice :=
  order_totals_correct_and_invariant.1 2026 sampleDb sampleDb1 sampleInput
    sampleOrder
    (by
      refine ⟨by decide, by decide, ?_⟩
      intro item hmem
      simp only [sampleInput, List.mem_singleton] at hmem
      subst hmem
      exact ⟨by decide, by decide, by norm_num⟩)
    createOrder_sample

/-- C3: when an update supplies an item list, the operation is
all-or-nothing: on success the updated order carries exactly the new item
set (with recomputed line totals) and the recomputed `totalAmount`, the
store still has the same number of orders and every other order is
untouched; on failure the store is completely unchanged. -/
theorem updateOrder_item_replacement_all_or_nothing :
    ∀ (db : Db) (id : Nat) (data : UpdateOrderInput)
      (items : List OrderItemInput),
      data.items = some items →
      (∀ (db' : Db) (o' : Order), updateOrder db id data = (db', .ok o') →
        o'.items = items.map persistItem ∧
        o'.totalAmount = orderTotal items ∧
        o' ∈ db'.orders ∧
        db'.orders.length = db.orders.length ∧
        ∀ x ∈ db'.orders, x.id ≠ id → x ∈ db.orders) ∧
      (∀ (db' : Db) (e : String), updateOrder db id data = (db', .error e) →
        db' = db) := by
  intro db id data items hi
  constructor
  · intro db' o' h
    obtain ⟨o, hfind, ho', hdb'⟩ := updateOrder_ok_items_elim hi h
    have hid : o.id = id := by
      have := List.find?_some hfind
      simpa using this
    have ho'id : o'.id = id := by rw [ho']; exact hid
    refine ⟨by rw [ho'], by rw [ho'], ?_, ?_, ?_⟩
    · rw [hdb']
      have hmem := List.mem_of_find?_eq_some hfind
      have : o' ∈ db.orders.map (fun x => if x.id = id then o' else x) := by
        rcases List.mem_map.mp (List.mem_map_of_mem
          (fun x => if x.id = id then o' else x) hmem) with ⟨y, hy, hxy⟩
        exact List.mem_map.mpr ⟨o, hmem, by simp [hid]⟩
      simpa using this
    · rw [hdb']; simp
    · intro x hx hxid
      rw [hdb'] at hx
      rcases List.mem_map.mp hx with ⟨y, hy, hxy⟩
      by_cases hcase : y.id = id
      · exfalso; apply hxid; rw [← hxy]; simpa [hcase] using ho'id
      · rw [← hxy]; simpa [hcase] using hy
  · intro db' e h
    exact (updateOrder_error_elim h).2.1

theorem updateOrder_item_replacement_all_or_nothing_witness :
    updatedOrder.items = updItems.map persistItem ∧
    updatedOrder.totalAmount = orderTotal updItems ∧
    updatedOrder ∈ updatedDb.orders ∧
    updatedDb.orders.length = sampleDb1.orders.length ∧
    (∀ x ∈ updatedDb.orders, x.id ≠ 0 → x ∈ sampleDb1.orders) :=
  (updateOrder_item_replacement_all_or_nothing sampleDb1 0 updInput
    updItems rfl).1 updatedDb updatedOrder rfl

/-- C4: when an update omits the item list, the updated order keeps its
items, `totalAmount`, id, order number and customer unchanged; only the
supplied scalar fields (status, notes) change, absent ones keeping their
old value. -/
theorem updateOrder_without_items_frame :
    ∀ (db db' : Db) (id : Nat) (data : UpdateOrderInput) (o' : Order),
      data.items = none →
      updateOrder db id data = (db', .ok o') →
      ∃ o, db.orders.find? (fun x => x.id == id) = some o ∧
        o'.items = o.items ∧
        o'.totalAmount = o.totalAmount ∧
        o'.id = o.id ∧
        o'.orderNumber = o.orderNumber ∧
        o'.customerId = o.customerId ∧
        o'.status = data.status.getD o.status ∧
        o'.notes = (match data.notes with | some v => some v | none => o.notes) ∧
        db' = { db with
                orders := db.orders.map (fun x => if x.id = id then o' else x) } := by
  intro db db' id data o' hi h
  obtain ⟨o, hfind, rfl, hdb'⟩ := updateOrder_ok_noitems_elim hi h
  exact ⟨o, hfind, rfl, rfl, rfl, rfl, rfl, rfl, rfl, hdb'⟩

theorem updateOrder_without_items_frame_witness :
    ∃ o, sampleDb1.orders.find? (fun x => x.id == 0) = some o ∧
      (applyOrderData { status := some .SHIPPED, notes := none, items := none }
          sampleOrder).items = o.items ∧
      (applyOrderData { status := some .SHIPPED, notes := none, items := none }
          sampleOrder).totalAmount = o.totalAmount ∧
      (applyOrderData { status := some .SHIPPED, notes := none, items := none }
          sampleOrder).id = o.id ∧
      (applyOrderData { status := some .SHIPPED, notes := none, items := none }
          sampleOrder).orderNumber = o.orderNumber ∧
      (applyOrderData { status := some .SHIPPED, notes := none, items := none }
          sampleOrder).customerId = o.customerId ∧
      (applyOrderData { status := some .SHIPPED, notes := none, items := none }
          sampleOrder).status
        = ({ status := some .SHIPPED, notes := none,
             items := none : UpdateOrderInput }).status.getD o.status ∧
      (applyOrderData { status := some .SHIPPED, notes := none, items := none }
          sampleOrder).notes
        = (match ({ status := some .SHIPPED, notes := none,
                    items := none : UpdateOrderInput }).notes with
           | some v => some v | none => o.notes) ∧
      (updateOrder sampleDb1 0
          { status := some .SHIPPED, notes := none, items := none }).1
        = { sampleDb1 with
            orders := sampleDb1.orders.map
              (fun x => if x.id = 0
                then applyOrderData
                  { status := some .SHIPPED, notes := none, items := none }
                  sampleOrder
                else x) } :=
  updateOrder_without_items_frame sampleDb1
    (updateOrder sampleDb1 0
      { status := some .SHIPPED, notes := none, items := none }).1 0
    { status := some .SHIPPED, notes := none, items := none }
    (applyOrderData { status := some .SHIPPED, notes := none, items := none }
      sampleOrder)
    rfl rfl

theorem foldl_val_replicate_zero (k : Nat) :
    (List.replicate k '0').foldl (fun a c => 10 * a + (c.toNat - 48)) 0 = 0 := by
  induction k with
  | zero => rfl
  | succ k ih => simpa [List.replicate_succ] using ih

theorem valChars_padStart (s : List Char) :
    valChars (padStart s 6 '0') = valChars s := by
  unfold valChars padStart
  rw [List.foldl_append, foldl_val_replicate_zero]

theorem digitChar_val : ∀ d, d < 10 → (Nat.digitChar d).toNat - 48 = d := by
  decide

theorem foldr_digits_val (l : List Nat) (h : ∀ d ∈ l, d < 10) :
    l.foldr (fun d a => 10 * a + ((Nat.digitChar d).toNat - 48)) 0
      = Nat.ofDigits 10 l := by
  induction l with
  | nil => rfl
  | cons hd tl ih =>
    rw [List.foldr_cons, ih (fun d hd => h d (List.mem_cons_of_mem _ hd)),
      Nat.ofDigits_cons, digitChar_val hd (h hd (List.mem_cons_self hd tl))]
    omega

theorem valChars_natDecimalChars (n : Nat) : valChars (natDecimalChars n) = n := by
  unfold natDecimalChars
  by_cases h : n = 0
  · subst h; rfl
  · simp only [h, if_false]
    unfold valChars
    rw [List.foldl_reverse, List.foldr_map]
    exact (foldr_digits_val _
      (fun d hd => Nat.digits_lt_base (by norm_num) hd)).trans
      (Nat.ofDigits_digits 10 n)

theorem pad_natDecimal_inj {m n : Nat}
    (h : padStart (natDecimalChars m) 6 '0' = padStart (natDecimalChars n) 6 '0') :
    m = n := by
  have hv := congrArg valChars h
  rwa [valChars_padStart, valChars_padStart, valChars_natDecimalChars,
    valChars_natDecimalChars] at hv

theorem mkOrderNumber_inj_seq {year s1 s2 : Nat}
    (h : mkOrderNumber year s1 = mkOrderNumber year s2) : s1 = s2 := by
  unfold mkOrderNumber at h
  have hd := congrArg String.data h
  exact pad_natDecimal_inj (List.append_cancel_left hd)

theorem natDecimalChars_length_four {y : Nat} (h1 : 1000 ≤ y) (h2 : y < 10000) :
    (natDecimalChars y).length = 4 := by
  have hy : y ≠ 0 := by omega
  unfold natDecimalChars
  simp only [hy, if_false, List.length_reverse, List.length_map]
  rw [Nat.digits_len 10 y (by norm_num) hy,
    Nat.log_eq_of_pow_le_of_lt_pow (by norm_num; omega : 10 ^ 3 ≤ y)
      (by norm_num; omega : y < 10 ^ (3 + 1))]

theorem padStart_natDecimal_length_six {seq : Nat}
    (h0 : 0 < seq) (h : seq < 1000000) :
    (padStart (natDecimalChars seq) 6 '0').length = 6 := by
  have hseq : seq ≠ 0 := by omega
  have hlen : (natDecimalChars seq).length ≤ 6 := by
    unfold natDecimalChars
    simp only [hseq, if_false, List.length_reverse, List.length_map]
    rw [Nat.digits_len 10 seq (by norm_num) hseq]
    have hlog : Nat.log 10 seq < 6 :=
      (Nat.lt_pow_iff_log_lt (by norm_num) hseq).mp (by norm_num; omega)
    omega
  unfold padStart
  rw [List.length_append, List.length_replicate]
  omega

theorem numbered_of_no_orders {year : Nat} {db : Db} (h : db.orders = []) :
    Numbered year db := by
  unfold Numbered orderNumbers
  rw [h]
  rfl

theorem createOrder_fst_numbered {year : Nat} {db : Db}
    {data : CreateOrderInput} (h : Numbered year db) :
    Numbered year (createOrder year db data).1 := by
  rcases hE : createOrder year db data with ⟨db', r⟩
  cases r with
  | error e =>
    obtain ⟨-, rfl, -⟩ := createOrder_error_elim hE
    exact h
  | ok o =>
    have hspec := createOrder_ok_elim hE
    rw [hspec.2.2.2.2.2.2]
    unfold Numbered orderNumbers at h ⊢
    simp only [List.map_append, List.length_append, List.map_cons, List.map_nil,
      List.length_cons, List.length_nil]
    rw [List.range_succ, List.map_append, h, hspec.2.2.1]
    simp

theorem runCreates_numbered {year : Nat} (inputs : List CreateOrderInput)
    {db : Db} (h : Numbered year db) :
    Numbered year (runCreates year db inputs) := by
  induction inputs generalizing db with
  | nil => exact h
  | cons hd tl ih =>
    exact ih (createOrder_fst_numbered h)

theorem numbered_nodup {year : Nat} {db : Db} (h : Numbered year db) :
    (orderNumbers db).Nodup := by
  rw [h]
  refine List.Nodup.map ?_ (List.nodup_range _)
  intro i j hij
  exact Nat.succ_injective (mkOrderNumber_inj_seq hij)

/-- C2 counterexample: create two orders, delete the first, create again —
the count-based sequence reuses 2, so the freshly generated order number
equals the number of an order already in the store.  The generated number
is therefore not unique across all existing orders. -/
theorem orderNumber_collision_after_delete :
    (deleteOrder (createOrder 2026 (createOrder 2026 sampleDb sampleInput).1
        sampleInput).1 0).1 = cexDb3 ∧
    (createOrder 2026 cexDb3 sampleInput).2 = .ok cexOrder4 ∧
    cexOrder2 ∈ cexDb3.orders ∧
    cexOrder2.id ≠ cexOrder4.id ∧
    cexOrder2.orderNumber = cexOrder4.orderNumber :=
  ⟨rfl, rfl, List.mem_singleton.mpr rfl, by decide, rfl⟩

/-- C2 (amended): every creation generates
`ORD-<year>-<String(count+1).padStart(6,'0')>` with the sequence equal to
the current order count plus one; the year part prints as 4 digits for
4-digit years and the padded part as 6 digits while the sequence stays
below 10⁶; and in a store reached from an empty order table by creations
only (within one year) all order numbers are pairwise distinct and a
further creation's number differs from every existing one.  Uniqueness can
fail once an order has been deleted (`orderNumber_collision_after_delete`). -/
theorem orderNumber_format_and_unique_without_deletes :
    (∀ (year : Nat) (db db' : Db) (data : CreateOrderInput) (o : Order),
       createOrder year db data = (db', .ok o) →
       o.orderNumber = mkOrderNumber year (db.orders.length + 1)) ∧
    (∀ y, 1000 ≤ y → y < 10000 → (natDecimalChars y).length = 4) ∧
    (∀ seq, 0 < seq → seq < 1000000 →
       (padStart (natDecimalChars seq) 6 '0').length = 6) ∧
    (∀ (year : Nat) (inputs : List CreateOrderInput) (db0 : Db),
       db0.orders = [] →
       (orderNumbers (runCreates year db0 inputs)).Nodup) ∧
    (∀ (year : Nat) (inputs : List CreateOrderInput) (db0 : Db)
       (data : CreateOrderInput) (db' : Db) (o : Order),
       db0.orders = [] →
       createOrder year (runCreates year db0 inputs) data = (db', .ok o) →
       ∀ x ∈ (runCreates year db0 inputs).orders,
         x.orderNumber ≠ o.orderNumber) := by
  refine ⟨?_, ?_, ?_, ?_, ?_⟩
  · intro year db db' data o h
    exact (createOrder_ok_elim h).2.2.1
  · intro y h1 h2
    exact natDecimalChars_length_four h1 h2
  · intro seq h0 h
    exact padStart_natDecimal_length_six h0 h
  · intro year inputs db0 h0
    exact numbered_nodup (runCreates_numbered inputs (numbered_of_no_orders h0))
  · intro year inputs db0 data db' o h0 h x hx heq
    have hN : Numbered year (runCreates year db0 inputs) :=
      runCreates_numbered inputs (numbered_of_no_orders h0)
    have hmem : x.orderNumber ∈ orderNumbers (runCreates year db0 inputs) :=
      List.mem_map_of_mem _ hx
    rw [hN] at hmem
    rcases List.mem_map.mp hmem with ⟨i, hi, hxi⟩
    have hilt : i < (runCreates year db0 inputs).orders.length :=
      List.mem_range.mp hi
    have ho := (createOrder_ok_elim h).2.2.1
    rw [heq, ho] at hxi
    have := mkOrderNumber_inj_seq hxi
    omega

theorem orderNumber_format_and_unique_without_deletes_witness :
    sampleOrder.orderNumber = mkOrderNumber 2026 (sampleDb.orders.length + 1) ∧
    (natDecimalChars 2026).length = 4 ∧
    (padStart (natDecimalChars 3) 6 '0').length = 6 ∧
    (orderNumbers (runCreates 2026 sampleDb [sampleInput, sampleInput])).Nodup :=
  ⟨orderNumber_format_and_unique_without_deletes.1 2026 sampleDb sampleDb1
      sampleInput sampleOrder createOrder_sample,
    orderNumber_format_and_unique_without_deletes.2.1 2026
      (by norm_num) (by norm_num),
    orderNumber_format_and_unique_without_deletes.2.2.1 3
      (by norm_num) (by norm_num),
    orderNumber_format_and_unique_without_deletes.2.2.2.1 2026
      [sampleInput, sampleInput] sampleDb rfl⟩

theorem splitSp_no_space (l : List Char) (h : ∀ c ∈ l, c ≠ ' ') :
    splitSp l = (l, []) := by
  induction l with
  | nil => rfl
  | cons c cs ih =>
    have hc : c ≠ ' ' := h c (List.mem_cons_self c cs)
    have ih' := ih (fun x hx => h x (List.mem_cons_of_mem _ hx))
    simp [splitSp, hc, ih']

theorem splitSp_append (a t : List Char) (ha : ∀ c ∈ a, c ≠ ' ') :
    splitSp (a ++ ' ' :: t) = (a, (splitSp t).1 :: (splitSp t).2) := by
  induction a with
  | nil => simp [splitSp]
  | cons c cs ih =>
    have hc : c ≠ ' ' := ha c (List.mem_cons_self c cs)
    have ih' := ih (fun x hx => ha x (List.mem_cons_of_mem _ hx))
    simp [splitSp, hc, ih']

theorem extractToken_append {scheme t : String}
    (hs : ∀ c ∈ scheme.data, c ≠ ' ') (ht : ∀ c ∈ t.data, c ≠ ' ')
    (hne : t ≠ "") :
    extractToken (some (scheme ++ " " ++ t)) = some t := by
  have hdata : (scheme ++ " " ++ t).data = scheme.data ++ ' ' :: t.data := by
    simp [String.data_append]
  have heta : String.mk t.data = t := rfl
  simp [extractToken, jsSplitSpace, hdata, splitSp_append _ _ hs,
    splitSp_no_space _ ht, heta, hne]

theorem extractToken_no_space {h : String} (hh : ∀ c ∈ h.data, c ≠ ' ') :
    extractToken (some h) = none := by
  simp [extractToken, jsSplitSpace, splitSp_no_space _ hh]

/-- C10 counterexample: on the header `"Basic t1 t2"` the middleware
extracts `"t1"` — the segment between the first and second space — while
the claimed "substring after the first space" is `"t1 t2"`.  The two
extraction rules therefore disagree. -/
theorem extractToken_not_substring_after_first_space :
    extractToken (some "Basic t1 t2") = some "t1" ∧
    claimedExtractToken (some "Basic t1 t2") = some "t1 t2" ∧
    ("t1" : String) ≠ "t1 t2" :=
  ⟨rfl, rfl, by decide⟩

/-- C10 (amended): the gate extracts the second space-separated segment of
the Authorization header (JS `split(' ')[1]`) without checking that the
scheme is `Bearer`: for any scheme word, `"<scheme> <token>"` (token
containing no space) has `<token>` handed to the verifier — e.g.
`"Basic <token>"` verifies `<token>` — while a header with no space at all
is treated as a missing token and rejected with
`"Access token required"`. -/
theorem extractToken_second_segment :
    (∀ (scheme t : String), (∀ c ∈ scheme.data, c ≠ ' ') →
       (∀ c ∈ t.data, c ≠ ' ') → t ≠ "" →
       extractToken (some (scheme ++ " " ++ t)) = some t) ∧
    (∀ (verify : String → Option JwtPayload) (scheme t : String)
       (p : JwtPayload), (∀ c ∈ scheme.data, c ≠ ' ') →
       (∀ c ∈ t.data, c ≠ ' ') → t ≠ "" → verify t = some p →
       authenticateToken verify (some (scheme ++ " " ++ t)) = .proceeded p) ∧
    (∀ (verify : String → Option JwtPayload) (h : String),
       (∀ c ∈ h.data, c ≠ ' ') →
       authenticateToken verify (some h)
         = .rejected (ApiResponseUtil.unauthorized "Access token required")) := by
  refine ⟨?_, ?_, ?_⟩
  · intro scheme t hs ht hne
    exact extractToken_append hs ht hne
  · intro verify scheme t p hs ht hne hv
    simp [authenticateToken, extractToken_append hs ht hne, hv]
  · intro verify h hh
    simp [authenticateToken, extractToken_no_space hh]

theorem extractToken_second_segment_witness :
    extractToken (some ("Basic" ++ " " ++ "tok123")) = some "tok123" ∧
    authenticateToken
        (fun t => if t = "tok123"
          then some { userId := "u1", email := "a@b.c" } else none)
        (some ("Basic" ++ " " ++ "tok123"))
      = .proceeded { userId := "u1", email := "a@b.c" } ∧
    authenticateToken (fun _ => none) (some "lonetoken")
      = .rejected (ApiResponseUtil.unauthorized "Access token required") :=
  ⟨extractToken_second_segment.1 "Basic" "tok123"
      (by decide) (by decide) (by decide),
    extractToken_second_segment.2.1
      (fun t => if t = "tok123"
        then some { userId := "u1", email := "a@b.c" } else none)
      "Basic" "tok123" { userId := "u1", email := "a@b.c" }
      (by decide) (by decide) (by decide) (by simp),
    extractToken_second_segment.2.2 (fun _ => none) "lonetoken" (by decide)⟩

/-- C5: with no extractable bearer token the gate responds 401
`"Access token required"`; with a token the verifier rejects — whatever
the cause — it responds 401 `"Invalid or expired token"` (one message for
every rejection cause); with a token the verifier accepts it proceeds with
the decoded identity attached.  The helpers' envelopes carry status 401. -/
theorem authenticateToken_cases :
    (∀ (verify : String → Option JwtPayload),
       authenticateToken verify none
         = .rejected (ApiResponseUtil.unauthorized "Access token required")) ∧
    (∀ (verify : String → Option JwtPayload) (h : String),
       extractToken (some h) = none →
       authenticateToken verify (some h)
         = .rejected (ApiResponseUtil.unauthorized "Access token required")) ∧
    (∀ (verify : String → Option JwtPayload) (h t : String),
       extractToken (some h) = some t → verify t = none →
       authenticateToken verify (some h)
         = .rejected (ApiResponseUtil.unauthorized "Invalid or expired token")) ∧
    (∀ (verify : String → Option JwtPayload) (h t : String) (p : JwtPayload),
       extractToken (some h) = some t → verify t = some p →
       authenticateToken verify (some h) = .proceeded p) ∧
    ApiResponseUtil.unauthorized "Access token required"
      = { status := 401, success := false,
          message := "Access token required", error := none } ∧
    ApiResponseUtil.unauthorized "Invalid or expired token"
      = { status := 401, success := false,
          message := "Invalid or expired token", error := none } := by
  refine ⟨?_, ?_, ?_, ?_, rfl, rfl⟩
  · intro verify; rfl
  · intro verify h hext
    simp [authenticateToken, hext]
  · intro verify h t hext hv
    simp [authenticateToken, hext, hv]
  · intro verify h t p hext hv
    simp [authenticateToken, hext, hv]

theorem authenticateToken_cases_witness :
    authenticateToken (fun _ => none) none
      = .rejected (ApiResponseUtil.unauthorized "Access token required") ∧
    authenticateToken (fun _ => none) (some "Bearer bad")
      = .rejected (ApiResponseUtil.unauthorized "Invalid or expired token") ∧
    authenticateToken
        (fun t => if t = "good"
          then some { userId := "u1", email := "a@b.c" } else none)
        (some "Bearer good")
      = .proceeded { userId := "u1", email := "a@b.c" } :=
  ⟨authenticateToken_cases.1 (fun _ => none),
    authenticateToken_cases.2.2.1 (fun _ => none) "Bearer bad" "bad" rfl rfl,
    authenticateToken_cases.2.2.2.1
      (fun t => if t = "good"
        then some { userId := "u1", email := "a@b.c" } else none)
      "Bearer good" "good" { userId := "u1", email := "a@b.c" } rfl (by simp)⟩

/-- C6: whenever login fails, the error message is `"Invalid credentials"`;
in particular the unknown-email failure and the wrong-password failure for
an existing user produce exactly the same message, so the two causes are
indistinguishable to the caller. -/
theorem login_failure_message_uniform :
    (∀ (compare : String → String → Bool) (generate : JwtPayload → Token)
       (users : List User) (credentials : LoginInput) (e : String),
       login compare generate users credentials = .error e →
       e = "Invalid credentials") ∧
    (∀ (compare : String → String → Bool) (generate : JwtPayload → Token)
       (users : List User) (credentials : LoginInput),
       users.find? (fun u => u.email == credentials.email) = none →
       login compare generate users credentials
         = .error "Invalid credentials") ∧
    (∀ (compare : String → String → Bool) (generate : JwtPayload → Token)
       (users : List User) (credentials : LoginInput) (user : User),
       users.find? (fun u => u.email == credentials.email) = some user →
       compare credentials.password user.password = false →
       login compare generate users credentials
         = .error "Invalid credentials") := by
  refine ⟨?_, ?_, ?_⟩
  · intro compare generate users credentials e h
    unfold login at h
    cases hfind : users.find? (fun u => u.email == credentials.email) with
    | none =>
      rw [hfind] at h
      simpa using h.symm
    | some user =>
      rw [hfind] at h
      by_cases hcmp : compare credentials.password user.password
      · simp [hcmp] at h
      · simp [hcmp] at h
        exact h.symm
  · intro compare generate users credentials hfind
    simp [login, hfind]
  · intro compare generate users credentials user hfind hcmp
    simp [login, hfind, hcmp]

theorem login_failure_message_uniform_witness :
    login (fun p h => p == h) (generateToken "secret" 0 86400) [sampleUser]
        { email := "ghost@example.com", password := "whatever" }
      = .error "Invalid credentials" ∧
    login (fun p h => p == h) (generateToken "secret" 0 86400) [sampleUser]
        { email := "admin@example.com", password := "wrong-pw" }
      = .error "Invalid credentials" :=
  ⟨login_failure_message_uniform.2.1 (fun p h => p == h)
      (generateToken "secret" 0 86400) [sampleUser]
      { email := "ghost@example.com", password := "whatever" } (by decide),
    login_failure_message_uniform.2.2 (fun p h => p == h)
      (generateToken "secret" 0 86400) [sampleUser]
      { email := "admin@example.com", password := "wrong-pw" } sampleUser
      (by decide) (by decide)⟩

/-- C7: a token issued for an identity verifies — under the same key and
before expiry — to exactly that identity; verification fails on a token
whose payload was tampered with after signing, on a token checked with a
different key, and on an expired token. -/
theorem token_roundtrip_and_rejection :
    ∀ (key key2 : String) (now0 dur now : Nat) (p q : JwtPayload),
      (now < now0 + dur →
        verifyToken key now (generateToken key now0 dur p) = some p) ∧
      (q ≠ p →
        verifyToken key now
          { generateToken key now0 dur p with payload := q } = none) ∧
      (key2 ≠ key →
        verifyToken key2 now (generateToken key now0 dur p) = none) ∧
      (now0 + dur ≤ now →
        verifyToken key now (generateToken key now0 dur p) = none) := by
  intro key key2 now0 dur now p q
  refine ⟨?_, ?_, ?_, ?_⟩
  · intro h
    simp [generateToken, verifyToken, h]
  · intro h
    simp [generateToken, verifyToken, Ne.symm h]
  · intro h
    simp [generateToken, verifyToken, Ne.symm h]
  · intro h
    simp [generateToken, verifyToken, Nat.not_lt.mpr h]

theorem token_roundtrip_and_rejection_witness :
    verifyToken "secret" 100
        (generateToken "secret" 0 86400 { userId := "u1", email := "a@b.c" })
      = some { userId := "u1", email := "a@b.c" } ∧
    verifyToken "secret" 100
        { generateToken "secret" 0 86400 { userId := "u1", email := "a@b.c" }
          with payload := { userId := "u2", email := "a@b.c" } }
      = none ∧
    verifyToken "other" 100
        (generateToken "secret" 0 86400 { userId := "u1", email := "a@b.c" })
      = none ∧
    verifyToken "secret" 90000
        (generateToken "secret" 0 86400 { userId := "u1", email := "a@b.c" })
      = none :=
  ⟨(token_roundtrip_and_rejection "secret" "other" 0 86400 100
      { userId := "u1", email := "a@b.c" }
      { userId := "u2", email := "a@b.c" }).1 (by decide),
    (token_roundtrip_and_rejection "secret" "other" 0 86400 100
      { userId := "u1", email := "a@b.c" }
      { userId := "u2", email := "a@b.c" }).2.1 (by decide),
    (token_roundtrip_and_rejection "secret" "other" 0 86400 100
      { userId := "u1", email := "a@b.c" }
      { userId := "u2", email := "a@b.c" }).2.2.1 (by decide),
    (token_roundtrip_and_rejection "secret" "other" 0 86400 90000
      { userId := "u1", email := "a@b.c" }
      { userId := "u2", email := "a@b.c" }).2.2.2 (by decide)⟩

/-- C8 counterexample: the page field `"abc"` is supplied and has no
leading digit, so `parseInt` yields `NaN` (modelled `none`) — the schema
does not fall back to the default 1; likewise `"xyz"` for limit does not
fall back to 10.  The claimed default-on-unparsable behaviour fails. -/
theorem pagination_nonnumeric_not_defaulted :
    parsePageField (some "abc") = none ∧
    parsePageField (some "abc") ≠ some 1 ∧
    parseLimitField (some "xyz") = none ∧
    parseLimitField (some "xyz") ≠ some 10 :=
  ⟨rfl, by decide, rfl, by decide⟩

/-- C8 (amended): the defaults page=1 / limit=10 apply exactly when the
field is absent or the empty string (JS falsiness); any other supplied
string is handed to `parseInt(·, 10)` unchecked, which produces the
leading-integer value — `NaN` (modelled `none`) when there are no leading
digits — with no positivity requirement. -/
theorem pagination_defaults_only_when_absent :
    parsePageField none = some 1 ∧
    parseLimitField none = some 10 ∧
    parsePageField (some "") = some 1 ∧
    parseLimitField (some "") = some 10 ∧
    (∀ v : String, v ≠ "" → parsePageField (some v) = jsParseInt v) ∧
    (∀ v : String, v ≠ "" → parseLimitField (some v) = jsParseInt v) := by
  refine ⟨rfl, rfl, rfl, rfl, ?_, ?_⟩
  · intro v hv
    simp [parsePageField, hv]
  · intro v hv
    simp [parseLimitField, hv]

theorem pagination_defaults_only_when_absent_witness :
    parsePageField (some "5") = jsParseInt "5" ∧
    jsParseInt "5" = some 5 ∧
    parseLimitField (some "0") = jsParseInt "0" ∧
    jsParseInt "0" = some 0 :=
  ⟨pagination_defaults_only_when_absent.2.2.2.2.1 "5" (by decide), rfl,
    pagination_defaults_only_when_absent.2.2.2.2.2 "0" (by decide), rfl⟩

/-- C9: every order-service failure caused by an absent order is mapped by
its handler to the 404 `"Order not found"` envelope (get by id, update,
delete), while a creation failure — the customer-existence check — is
mapped to the generic `"Failed to create order"` envelope with the default
status 400, not 404. -/
theorem order_handler_error_mapping :
    (∀ (db : Db) (id : Nat) (e : String), getOrderById db id = .error e →
       OrderController.getOrderById db id = ApiResponseUtil.notFound "Order" ∧
       (ApiResponseUtil.notFound "Order").status = 404 ∧
       (ApiResponseUtil.notFound "Order").message = "Order not found") ∧
    (∀ (db db' : Db) (id : Nat) (data : UpdateOrderInput) (e : String),
       updateOrder db id data = (db', .error e) →
       OrderController.updateOrder db id data
         = (db', ApiResponseUtil.notFound "Order")) ∧
    (∀ (db db' : Db) (id : Nat) (e : String),
       deleteOrder db id = (db', .error e) →
       OrderController.deleteOrder db id
         = (db', ApiResponseUtil.notFound "Order")) ∧
    (∀ (year : Nat) (db db' : Db) (data : CreateOrderInput) (e : String),
       createOrder year db data = (db', .error e) →
       OrderController.createOrder year db data
         = (db', ApiResponseUtil.error "Failed to create order" (some e) 400) ∧
       (ApiResponseUtil.error "Failed to create order" (some e) 400).status
         ≠ 404) := by
  refine ⟨?_, ?_, ?_, ?_⟩
  · intro db id e h
    exact ⟨by simp [OrderController.getOrderById, h], rfl, rfl⟩
  · intro db db' id data e h
    simp [OrderController.updateOrder, h]
  · intro db db' id e h
    simp [OrderController.deleteOrder, h]
  · intro year db db' data e h
    exact ⟨by simp [OrderController.createOrder, h],
      by norm_num [ApiResponseUtil.error]⟩

theorem order_handler_error_mapping_witness :
    (OrderController.getOrderById sampleDb 99 = ApiResponseUtil.notFound "Order" ∧
      (ApiResponseUtil.notFound "Order").status = 404 ∧
      (ApiResponseUtil.notFound "Order").message = "Order not found") ∧
    OrderController.updateOrder sampleDb 99
        { status := none, notes := none, items := none }
      = (sampleDb, ApiResponseUtil.notFound "Order") ∧
    OrderController.deleteOrder sampleDb 99
      = (sampleDb, ApiResponseUtil.notFound "Order") ∧
    (OrderController.createOrder 2026 sampleDb
        { customerId := "nope", status := none, notes := none
          items := [{ productName := "Laptop", quantity := 1, unitPrice := 2 }] }
      = (sampleDb,
          ApiResponseUtil.error "Failed to create order"
            (some "Customer not found") 400) ∧
      (ApiResponseUtil.error "Failed to create order"
          (some "Customer not found") 400).status ≠ 404) :=
  ⟨order_handler_error_mapping.1 sampleDb 99 "Order not found" rfl,
    order_handler_error_mapping.2.1 sampleDb sampleDb 99
      { status := none, notes := none, items := none } "Order not found" rfl,
    order_handler_error_mapping.2.2.1 sampleDb sampleDb 99 "Order not found" rfl,
    order_handler_error_mapping.2.2.2 2026 sampleDb sampleDb
      { customerId := "nope", status := none, notes := none
        items := [{ productName := "Laptop", quantity := 1, unitPrice := 2 }] }
      "Customer not found" rfl⟩

end OrderApi
